import Mathlib

/-!
Shallow embedding of `programs/whirlpool/src/state/token_badge.rs`.

The source defines one account record:

  #[account]
  #[derive(Default)]
  pub struct TokenBadge {
      pub whirlpools_config: Pubkey, // 32
      pub token_mint: Pubkey,        // 32
                                     // 128 RESERVE
  }

  impl TokenBadge {
      pub const LEN: usize = 8 + 32 + 32 + 128;

      pub fn initialize(&mut self, whirlpools_config: Pubkey, token_mint: Pubkey) -> Result<()> {
          self.whirlpools_config = whirlpools_config;
          self.token_mint = token_mint;
          Ok(())
      }
  }

Bytes are `Fin 256`; a `Pubkey` is a 32-byte identifier; mutation of `&mut self`
is explicit state passing (the Rust method returns `Result<()>` and mutates
`self`, so the embedding returns the result value together with the post-state).
-/

/-- A byte of the persisted layout. -/
abbrev Byte := Fin 256

/-- Solana `Pubkey`: an opaque fixed-width 32-byte identifier, equality-comparable. -/
abbrev Pubkey := { l : List Byte // l.length = 32 }

/-- `Pubkey::default()`: the all-zero 32-byte identifier. -/
def Pubkey.zero : Pubkey := ⟨List.replicate 32 0, by simp⟩

/-- The spec scenario identifier `0x01*32`. -/
def Pubkey.scenario1 : Pubkey := ⟨List.replicate 32 1, by simp⟩

/-- The spec scenario identifier `0x02*32`. -/
def Pubkey.scenario2 : Pubkey := ⟨List.replicate 32 2, by simp⟩

/-- The `TokenBadge` struct: two `Pubkey` fields.  The 128-byte reserve exists only
in the account layout (see `TokenBadge.LEN` and `TokenBadge.serializeAccount`),
not as a field of the struct. -/
structure TokenBadge where
  whirlpools_config : Pubkey
  token_mint : Pubkey
deriving DecidableEq

/-- `#[derive(Default)]`: a freshly allocated, never-initialized record; both
`Pubkey` fields default to all zeroes. -/
def TokenBadge.default : TokenBadge := ⟨Pubkey.zero, Pubkey.zero⟩

/-- `anchor_lang::error::Error`, opaque to this component: no variant of it is
ever produced by this file's operations. -/
inductive AnchorError where
  | err : AnchorError
deriving DecidableEq

/-- `anchor_lang::Result<A>` = `Result<A, Error>`. -/
abbrev AnchorResult (α : Type) := Except AnchorError α

/-- `TokenBadge::LEN = 8 + 32 + 32 + 128`. -/
def TokenBadge.LEN : Nat := 8 + 32 + 32 + 128

/-- `TokenBadge::initialize` (the source name `initialize` is a reserved word in
Lean, so the embedding calls it `init`): overwrites `whirlpools_config` and
`token_mint` with the supplied values and returns `Ok(())`.  The pair is (returned result,
post-state of `self`); the post-state's fields are, in order, the new
`whirlpools_config` and the new `token_mint`. -/
def TokenBadge.init (self : TokenBadge) (whirlpools_config token_mint : Pubkey) :
    AnchorResult Unit × TokenBadge :=
  (Except.ok (), ⟨whirlpools_config, token_mint⟩)

/-- Modelled from the spec: the persisted account layout
`[storage-header bytes][configScope: 32 bytes][tokenMint: 32 bytes][reserved: 128 bytes]`.
The serializer itself is the external `#[account]` derive (anchor), not code under
`src/`; the spec fixes the layout.  `header` is the storage layer's fixed
discriminator prefix (its value is out of scope, only its 8-byte size matters);
the reserve is the zero-initialized tail of the allocated region, which this
component never writes. -/
def TokenBadge.serializeAccount (header : List Byte) (s : TokenBadge) : List Byte :=
  header ++ s.whirlpools_config.val ++ s.token_mint.val ++ List.replicate 128 (0 : Byte)

/-- Modelled from the spec: reading back the persisted layout — check the
storage-header prefix, then take the two 32-byte identifiers that follow it. -/
def TokenBadge.deserializeAccount (header : List Byte) (data : List Byte) : Option TokenBadge :=
  if (data.take 8) = header then
    if h1 : ((data.drop 8).take 32).length = 32 then
      if h2 : (((data.drop 8).drop 32).take 32).length = 32 then
        some ⟨⟨(data.drop 8).take 32, h1⟩, ⟨((data.drop 8).drop 32).take 32, h2⟩⟩
      else none
    else none
  else none

/-- The component's operation surface: `impl TokenBadge` exposes exactly one
state-changing operation (`LEN` is a constant, not an operation). -/
inductive TokenBadgeOp where
  | init (whirlpools_config token_mint : Pubkey) : TokenBadgeOp

/-- Run one interface operation on a record. -/
def TokenBadgeOp.apply : TokenBadgeOp → TokenBadge → AnchorResult Unit × TokenBadge
  | TokenBadgeOp.init wc tm, s => TokenBadge.init s wc tm

/-- Helper: the serialized account image of any record deserializes back to that
record, for any 8-byte storage header. -/
theorem deserializeAccount_serializeAccount (header : List Byte) (s : TokenBadge)
    (h : header.length = 8) :
    TokenBadge.deserializeAccount header ( TokenBadge.serializeAccount header s) = some s := by
  obtain ⟨⟨cv, hc⟩, ⟨mv, hm⟩⟩ := s
  unfold TokenBadge.serializeAccount TokenBadge.deserializeAccount
  simp only [List.append_assoc]
  have e0 : List.take 8 (header ++ (cv ++ (mv ++ List.replicate 128 (0 : Byte)))) = header :=
    List.take_left' h
  have e1 : List.drop 8 (header ++ (cv ++ (mv ++ List.replicate 128 (0 : Byte)))) =
      cv ++ (mv ++ List.replicate 128 (0 : Byte)) := List.drop_left' h
  have e2 : List.take 32 (cv ++ (mv ++ List.replicate 128 (0 : Byte))) = cv :=
    List.take_left' hc
  have e3 : List.drop 32 (cv ++ (mv ++ List.replicate 128 (0 : Byte))) =
      mv ++ List.replicate 128 (0 : Byte) := List.drop_left' hc
  have e4 : List.take 32 (mv ++ List.replicate 128 (0 : Byte)) = mv := List.take_left' hm
  simp only [e0, e1, e2, e3, e4]
  simp [hc, hm]

/-- Helper: the serialized account image of any record has the 128 reserve bytes,
all zero, at offset 72, for any 8-byte storage header. -/
theorem serializeAccount_drop72 (header : List Byte) (s : TokenBadge)
    (h : header.length = 8) :
    ( TokenBadge.serializeAccount header s).drop 72 = List.replicate 128 (0 : Byte) := by
  unfold TokenBadge.serializeAccount
  exact List.drop_left' (by
    simp [h, s.whirlpools_config.property, s.token_mint.property])

/-- C1: for every pair of 32-byte identifiers (configScope, tokenMint), calling
`initialize` on any record sets `whirlpools_config` to configScope and
`token_mint` to tokenMint. -/
theorem tokenBadge_init_sets_fields (s : TokenBadge) (configScope tokenMint : Pubkey) :
    ( TokenBadge.init s configScope tokenMint).2.whirlpools_config = configScope ∧
    ( TokenBadge.init s configScope tokenMint).2.token_mint = tokenMint :=
  ⟨rfl, rfl⟩

/-- C2: the serialized account image of any record (freshly allocated or however
initialized) is exactly `TokenBadge.LEN` bytes long, for any 8-byte storage
header: the declared size constant matches the actual field layout. -/
theorem tokenBadge_serialized_length (header : List Byte) (s : TokenBadge)
    (h : header.length = 8) :
    ( TokenBadge.serializeAccount header s).length = TokenBadge.LEN := by
  simp [TokenBadge.serializeAccount, TokenBadge.LEN, h,
    s.whirlpools_config.property, s.token_mint.property]

/-- C2 witness: the length equation evaluated at a concrete header and the
default record. -/
theorem tokenBadge_serialized_length_witness :
    (List.replicate 8 (0 : Byte)).length = 8 ∧
    ( TokenBadge.serializeAccount (List.replicate 8 (0 : Byte)) TokenBadge.default).length =
      TokenBadge.LEN :=
  ⟨by simp,
   tokenBadge_serialized_length (List.replicate 8 (0 : Byte)) TokenBadge.default (by simp)⟩

/-- C3: the 128-byte reserve after the two 32-byte identifiers (offset 72 of the
account image, with its 8-byte header) is all zero on a freshly allocated record;
`initialize` leaves the reserve exactly as it was, so after `initialize` it is
still all zero. -/
theorem tokenBadge_reserve_zero (header : List Byte) (s : TokenBadge)
    (configScope tokenMint : Pubkey) (h : header.length = 8) :
    ( TokenBadge.serializeAccount header TokenBadge.default).drop 72 =
      List.replicate 128 (0 : Byte) ∧
    ( TokenBadge.serializeAccount header
        ( TokenBadge.init s configScope tokenMint).2).drop 72 =
      ( TokenBadge.serializeAccount header s).drop 72 ∧
    ( TokenBadge.serializeAccount header
        ( TokenBadge.init s configScope tokenMint).2).drop 72 =
      List.replicate 128 (0 : Byte) :=
  ⟨serializeAccount_drop72 header TokenBadge.default h,
   (serializeAccount_drop72 header _ h).trans (serializeAccount_drop72 header s h).symm,
   serializeAccount_drop72 header _ h⟩

/-- C3 witness: the reserve facts evaluated at a concrete header, the default
record and the spec's scenario identifiers. -/
theorem tokenBadge_reserve_zero_witness :
    (List.replicate 8 (0 : Byte)).length = 8 ∧
    (( TokenBadge.serializeAccount (List.replicate 8 (0 : Byte)) TokenBadge.default).drop 72 =
        List.replicate 128 (0 : Byte) ∧
      ( TokenBadge.serializeAccount (List.replicate 8 (0 : Byte))
          ( TokenBadge.init TokenBadge.default Pubkey.scenario1 Pubkey.scenario2).2).drop 72 =
        ( TokenBadge.serializeAccount (List.replicate 8 (0 : Byte)) TokenBadge.default).drop 72 ∧
      ( TokenBadge.serializeAccount (List.replicate 8 (0 : Byte))
          ( TokenBadge.init TokenBadge.default Pubkey.scenario1 Pubkey.scenario2).2).drop 72 =
        List.replicate 128 (0 : Byte)) :=
  ⟨by simp,
   tokenBadge_reserve_zero (List.replicate 8 (0 : Byte)) TokenBadge.default
     Pubkey.scenario1 Pubkey.scenario2 (by simp)⟩

/-- C4: for every pair of 32-byte identifiers, initializing a record with them,
serializing the account image and deserializing it yields back the initialized
record, whose `whirlpools_config` and `token_mint` equal the inputs exactly. -/
theorem tokenBadge_roundtrip (header : List Byte) (s : TokenBadge)
    (configScope tokenMint : Pubkey) (h : header.length = 8) :
    TokenBadge.deserializeAccount header
        ( TokenBadge.serializeAccount header
          ( TokenBadge.init s configScope tokenMint).2) =
      some ( TokenBadge.init s configScope tokenMint).2 ∧
    ( TokenBadge.init s configScope tokenMint).2.whirlpools_config = configScope ∧
    ( TokenBadge.init s configScope tokenMint).2.token_mint = tokenMint :=
  ⟨deserializeAccount_serializeAccount header _ h, rfl, rfl⟩

/-- C4 witness: the round-trip evaluated at a concrete header and the spec's
scenario identifiers. -/
theorem tokenBadge_roundtrip_witness :
    (List.replicate 8 (0 : Byte)).length = 8 ∧
    (TokenBadge.deserializeAccount (List.replicate 8 (0 : Byte))
        ( TokenBadge.serializeAccount (List.replicate 8 (0 : Byte))
          ( TokenBadge.init TokenBadge.default Pubkey.scenario1 Pubkey.scenario2).2) =
      some ( TokenBadge.init TokenBadge.default Pubkey.scenario1 Pubkey.scenario2).2 ∧
    ( TokenBadge.init TokenBadge.default Pubkey.scenario1
        Pubkey.scenario2).2.whirlpools_config = Pubkey.scenario1 ∧
    ( TokenBadge.init TokenBadge.default Pubkey.scenario1
        Pubkey.scenario2).2.token_mint = Pubkey.scenario2) :=
  ⟨by simp,
   tokenBadge_roundtrip (List.replicate 8 (0 : Byte)) TokenBadge.default
     Pubkey.scenario1 Pubkey.scenario2 (by simp)⟩

/-- C5: the exported size constant equals headerSize (8) + 32 + 32 + 128,
i.e. exactly 200. -/
theorem tokenBadge_LEN_value : TokenBadge.LEN = 8 + 32 + 32 + 128 ∧ TokenBadge.LEN = 200 :=
  ⟨rfl, rfl⟩

/-- C6: `initialize` is total with no failure path: for every starting state and
every pair of identifiers it returns `Ok(())`, never an error. -/
theorem tokenBadge_init_total (s : TokenBadge) (configScope tokenMint : Pubkey) :
    ( TokenBadge.init s configScope tokenMint).1 = Except.ok () :=
  rfl

/-- C7: calling `initialize` twice on the same record leaves the second call's
values (last write wins) and the second call succeeds. -/
theorem tokenBadge_init_last_write_wins (s : TokenBadge) (a1 b1 a2 b2 : Pubkey) :
    ( TokenBadge.init ( TokenBadge.init s a1 b1).2 a2 b2).1 = Except.ok () ∧
    ( TokenBadge.init ( TokenBadge.init s a1 b1).2 a2 b2).2.whirlpools_config = a2 ∧
    ( TokenBadge.init ( TokenBadge.init s a1 b1).2 a2 b2).2.token_mint = b2 :=
  ⟨rfl, rfl, rfl⟩

/-- C8: the component exposes no mutation operation other than `initialize`: any
interface operation that changes a record's fields is an `initialize`, and its
effect is exactly the unconditional overwrite. -/
theorem tokenBadge_only_init_mutates (op : TokenBadgeOp) (s : TokenBadge)
    (h : (op.apply s).2 ≠ s) :
    ∃ configScope tokenMint, op = TokenBadgeOp.init configScope tokenMint ∧
      (op.apply s).2 = ( TokenBadge.init s configScope tokenMint).2 := by
  obtain ⟨wc, tm⟩ := op
  exact ⟨wc, tm, rfl, rfl⟩

/-- C8 witness: a concrete mutating operation on the default record. -/
theorem tokenBadge_only_init_mutates_witness :
    (( TokenBadgeOp.init Pubkey.scenario1 Pubkey.scenario2).apply
        TokenBadge.default).2 ≠ TokenBadge.default ∧
    ∃ configScope tokenMint,
      TokenBadgeOp.init Pubkey.scenario1 Pubkey.scenario2 =
        TokenBadgeOp.init configScope tokenMint ∧
      (( TokenBadgeOp.init Pubkey.scenario1 Pubkey.scenario2).apply
          TokenBadge.default).2 =
        ( TokenBadge.init TokenBadge.default configScope tokenMint).2 :=
  ⟨by decide,
   tokenBadge_only_init_mutates ( TokenBadgeOp.init Pubkey.scenario1 Pubkey.scenario2)
     TokenBadge.default (by decide)⟩

/-- C9: the post-state and the result of `initialize` depend only on the two
inputs, not on the record's prior state. -/
theorem tokenBadge_init_state_independent (s t : TokenBadge) (configScope tokenMint : Pubkey) :
    TokenBadge.init s configScope tokenMint =
      TokenBadge.init t configScope tokenMint :=
  rfl

/-- C10: a default-constructed (freshly allocated, never-initialized) record has
both `whirlpools_config` and `token_mint` equal to the all-zero 32-byte
identifier. -/
theorem tokenBadge_default_zero :
    TokenBadge.default.whirlpools_config.val = List.replicate 32 (0 : Byte) ∧
    TokenBadge.default.token_mint.val = List.replicate 32 (0 : Byte) :=
  ⟨rfl, rfl⟩
